import Mathlib

/- Shallow embedding of the vamdcportal Node Discovery & Fan-Out Query Engine.

   Embedded sources:
   * registry live strategy (parseNodesXml)  — src/unnamed/part_000
   * static strategy (fetchNodes)            — src/vamdc-portal/src/services/registry.ts
   * query encoder and prober (buildQueryString, buildDownloadUrl, queryNode,
     queryAllNodes)                          — src/unnamed/part_001
   * data types                              — src/vamdc-portal/src/types/vamdc.ts

   JavaScript platform primitives the code relies on (template-literal number
   rendering, encodeURIComponent, parseInt, case-insensitive header lookup,
   String.prototype.split / endsWith) are modelled explicitly below, following
   the ECMAScript / Fetch specifications of those primitives. -/

set_option maxRecDepth 10000

/-- TS interface VamdcNode (types/vamdc.ts). `tapEndpoint` is what the spec
calls `endpointBaseUrl`. -/
structure VamdcNode where
  id : String
  name : String
  tapEndpoint : String
deriving DecidableEq, Repr

/-- TS interface QueryParams (types/vamdc.ts). The wavelengths are JavaScript
numbers; the engine only interpolates them into strings, and integral doubles
render as plain decimal numerals, so they are embedded as integers. -/
structure QueryParams where
  wavelengthMin : Int
  wavelengthMax : Int
deriving DecidableEq, Repr

/-- Decimal digit character, as used by JavaScript number rendering. -/
def jsDigitChar (d : Nat) : Char :=
  match d with
  | 0 => '0' | 1 => '1' | 2 => '2' | 3 => '3' | 4 => '4'
  | 5 => '5' | 6 => '6' | 7 => '7' | 8 => '8' | _ => '9'

/-- Little-endian decimal digits, fuel-based so that it reduces by rfl;
`natDigitsRev` below supplies sufficient fuel. -/
def natDigitsRevAux : Nat → Nat → List Nat
  | _, 0 => []
  | 0, _ + 1 => []
  | n + 1, fuel + 1 => ((n + 1) % 10) :: natDigitsRevAux ((n + 1) / 10) fuel

/-- Little-endian decimal digits of a natural number (empty for 0). -/
def natDigitsRev (n : Nat) : List Nat := natDigitsRevAux n n

/-- Rendering of a non-negative integral JavaScript number in a template
literal (ECMAScript Number::toString, radix 10). -/
def jsNatToString (n : Nat) : String :=
  if n = 0 then "0" else ((natDigitsRev n).reverse.map jsDigitChar).asString

/-- Rendering of an integral JavaScript number in a template literal. -/
def jsIntToString : Int → String
  | .ofNat n => jsNatToString n
  | .negSucc n => "-" ++ jsNatToString (n + 1)

/-- Characters encodeURIComponent leaves unescaped: ASCII letters and digits
plus the marks - _ . ! ~ * ( ) and the single-quote character (code 39). -/
def uriUnreserved (c : Char) : Bool :=
  c.isAlphanum || c = '-' || c = '_' || c = '.' || c = '!' || c = '~' ||
    c = '*' || c.toNat = 39 || c = '(' || c = ')'

/-- UTF-8 bytes of a character, as natural numbers below 256. -/
def utf8Bytes (c : Char) : List Nat :=
  let n := c.toNat
  if n < 128 then [n]
  else if n < 2048 then [192 + n / 64, 128 + n % 64]
  else if n < 65536 then [224 + n / 4096, 128 + n / 64 % 64, 128 + n % 64]
  else [240 + n / 262144, 128 + n / 4096 % 64, 128 + n / 64 % 64, 128 + n % 64]

/-- Uppercase hexadecimal digit character, as used in percent-escapes. -/
def hexDigitChar (d : Nat) : Char :=
  match d with
  | 0 => '0' | 1 => '1' | 2 => '2' | 3 => '3' | 4 => '4'
  | 5 => '5' | 6 => '6' | 7 => '7' | 8 => '8' | 9 => '9'
  | 10 => 'A' | 11 => 'B' | 12 => 'C' | 13 => 'D' | 14 => 'E' | _ => 'F'

/-- Percent-escape of one byte (uppercase), as produced by encodeURIComponent. -/
def percentByte (b : Nat) : String :=
  ⟨['%', hexDigitChar (b / 16), hexDigitChar (b % 16)]⟩

/-- Model of JavaScript encodeURIComponent: unreserved characters pass through,
every other character is replaced by the percent-escapes of its UTF-8 bytes. -/
def encodeURIComponent (s : String) : String :=
  String.join (s.data.map (fun c =>
    if uriUnreserved c then String.singleton c
    else String.join ((utf8Bytes c).map percentByte)))

/-- buildQueryString (part_001 lines 3-5): the VSS2 range predicate, with the
wavelength bounds interpolated verbatim. -/
def buildQueryString (params : QueryParams) : String :=
  "SELECT * WHERE RadTransWavelength >= " ++ jsIntToString params.wavelengthMin ++
    " AND RadTransWavelength <= " ++ jsIntToString params.wavelengthMax

/-- buildDownloadUrl (part_001 lines 7-10): fixed protocol parameters plus the
percent-encoded predicate, appended to the node base URL under sync. -/
def buildDownloadUrl (tapEndpoint : String) (queryString : String) : String :=
  tapEndpoint ++ "sync?LANG=VSS2&REQUEST=doQuery&FORMAT=XSAMS&QUERY=" ++
    encodeURIComponent queryString

/-- Generic single-pass splitter on character lists: the pieces between
separator positions, empty pieces preserved (ECMAScript split behavior). -/
def splitListP (p : Char → Bool) : List Char → List (List Char)
  | [] => [[]]
  | c :: rest =>
      let r := splitListP p rest
      if p c then [] :: r else (c :: r.headD []) :: r.tail

/-- Model of JavaScript String.prototype.split with a one-character separator. -/
def jsSplitChar (s : String) (sep : Char) : List String :=
  (splitListP (fun c => c = sep) s.data).map (fun l => ⟨l⟩)

/-- Model of JavaScript String.prototype.endsWith (full search string). -/
def jsEndsWith (s t : String) : Bool :=
  t.data.isSuffixOf s.data

/-- One node record of a well-formed registry document, abstracting the DOM
access of parseNodesXml: the text content of the first title child and of the
first url child (none when that child element is absent). -/
structure NodeRecord where
  title : Option String
  url : Option String
deriving DecidableEq, Repr

/-- The title local of the forEach body of parseNodesXml (part_000 line 33):
textContent of the title element, with the truthiness fallback to Unknown
when the element is absent or its text is empty. -/
def recordTitle (r : NodeRecord) : String :=
  match r.title with
  | none => "Unknown"
  | some t => if t = "" then "Unknown" else t

/-- The url local after line 37 of part_000: the piece of the url text before
the first space (split on a single space character, first element, with the
nullish fallback to the empty string). -/
def recordUrl1 (r : NodeRecord) : String :=
  (jsSplitChar (r.url.getD "") ' ').headD ""

/-- The url local after lines 38-40 of part_000: a trailing slash is appended
when the url is non-empty and lacks one. -/
def recordUrl2 (r : NodeRecord) : String :=
  if recordUrl1 r ≠ "" ∧ jsEndsWith (recordUrl1 r) "/" = false then
    recordUrl1 r ++ "/"
  else recordUrl1 r

/-- Body of the forEach loop of parseNodesXml (part_000 lines 32-49) at
element index `index`: a node is pushed exactly when the processed url is
non-empty. -/
def parseNodeRecord (index : Nat) (r : NodeRecord) : Option VamdcNode :=
  if recordUrl2 r ≠ "" then
    some { id := "node-" ++ jsNatToString index, name := recordTitle r,
           tapEndpoint := recordUrl2 r }
  else none

/-- The forEach loop of parseNodesXml, carrying the element index. -/
def parseNodesAux : Nat → List NodeRecord → List VamdcNode
  | _, [] => []
  | i, r :: rest =>
      match parseNodeRecord i r with
      | some node => node :: parseNodesAux (i + 1) rest
      | none => parseNodesAux (i + 1) rest

/-- parseNodesXml (part_000 lines 26-52) on the abstracted document. -/
def parseNodesXml (records : List NodeRecord) : List VamdcNode :=
  parseNodesAux 0 records

/-- fetchNodes of the static strategy (registry.ts): after a successful
transport, the parsed nodes.json records are returned unchanged — the body of
the function is `return response.json()` with no further normalization. -/
def fetchNodes (body : List VamdcNode) : List VamdcNode := body

/-- Spec-side reading (for claim C5) of the candidate URLs of a record: the
non-empty whitespace-separated pieces of the url text. -/
def specCandidateUrls (urlText : String) : List String :=
  ((splitListP Char.isWhitespace urlText.data).map
    (fun l => (⟨l⟩ : String))).filter (fun s => s ≠ "")

/-- JavaScript number as produced by parseInt: an integer or NaN. -/
inductive JsNum where
  | nan : JsNum
  | int : Int → JsNum
deriving DecidableEq, Repr

/-- ECMAScript whitespace skipped by parseInt (the ASCII part). -/
def isJsSpace (c : Char) : Bool :=
  c = ' ' || c = '\t' || c = '\n' || c = '\r' || c.toNat = 11 || c.toNat = 12

/-- Numeric value of a run of decimal digit characters. -/
def digitsVal (l : List Char) : Nat :=
  l.foldl (fun acc c => acc * 10 + (c.toNat - 48)) 0

/-- Model of JavaScript parseInt(value, 10): skip leading whitespace, read an
optional sign and then the longest prefix of decimal digits; the result is NaN
when that prefix is empty. -/
def jsParseInt (s : String) : JsNum :=
  match s.data.dropWhile isJsSpace with
  | '-' :: rest =>
      let digits := rest.takeWhile Char.isDigit
      if digits = [] then .nan else .int (-(digitsVal digits : Int))
  | '+' :: rest =>
      let digits := rest.takeWhile Char.isDigit
      if digits = [] then .nan else .int (digitsVal digits)
  | rest =>
      let digits := rest.takeWhile Char.isDigit
      if digits = [] then .nan else .int (digitsVal digits)

/-- ASCII lowering of a header name, character by character (header names are
ASCII byte sequences in the Fetch specification). -/
def jsToLower (s : String) : String :=
  ⟨s.data.map Char.toLower⟩

/-- Header list of a fetch Response; get is case-insensitive (Fetch spec). -/
def lookupHeader (headers : List (String × String)) (name : String) : Option String :=
  (headers.find? (fun p => jsToLower p.1 = jsToLower name)).map Prod.snd

/-- The status union of the TS interface NodeResponse (types/vamdc.ts). -/
inductive QueryStatus where
  | pending
  | success
  | error
  | timeout
deriving DecidableEq, Repr

/-- TS interface NodeResponse (types/vamdc.ts); the optional fields are
Options, absent by default. -/
structure NodeResponse where
  nodeId : String
  nodeName : String
  status : QueryStatus
  numSpecies : Option JsNum := none
  numStates : Option JsNum := none
  numTransitions : Option JsNum := none
  downloadUrl : Option String := none
  error : Option String := none
deriving DecidableEq, Repr

/-- Outcome of the single fetch queryNode performs: a settled HTTP response
(status code and headers), a rejection with the AbortError that cancellation
produces, a rejection with another Error carrying a message, or a rejection
with a non-Error value. -/
inductive FetchOutcome where
  | response : Nat → List (String × String) → FetchOutcome
  | abortError : FetchOutcome
  | otherError : String → FetchOutcome
  | thrownNonError : FetchOutcome
deriving DecidableEq, Repr

/-- The getHeader closure of queryNode (part_001 lines 39-42): a missing or
empty header value yields 0 by JS truthiness; a present non-empty value goes
through parseInt, which yields NaN when it is non-numeric. -/
def getHeader (headers : List (String × String)) (name : String) : JsNum :=
  match lookupHeader headers name with
  | none => .int 0
  | some v => if v = "" then .int 0 else jsParseInt v

/-- Response.ok of the Fetch specification: status in the range 200-299. -/
def responseOk (status : Nat) : Bool := 200 ≤ status && status < 300

/-- queryNode (part_001 lines 12-73) as a function of the node, the params and
the outcome of its single fetch: every outcome is classified into exactly one
terminal NodeResponse (success, error or timeout). -/
def queryNode (node : VamdcNode) (params : QueryParams) (outcome : FetchOutcome) :
    NodeResponse :=
  let url := buildDownloadUrl node.tapEndpoint (buildQueryString params)
  match outcome with
  | .response status headers =>
      if responseOk status then
        { nodeId := node.id, nodeName := node.name, status := .success,
          numSpecies := some (getHeader headers "VAMDC-COUNT-SPECIES"),
          numStates := some (getHeader headers "VAMDC-COUNT-STATES"),
          numTransitions := some (getHeader headers "VAMDC-COUNT-RADIATIVE"),
          downloadUrl := some url }
      else
        { nodeId := node.id, nodeName := node.name, status := .error,
          error := some ("HTTP " ++ jsNatToString status) }
  | .abortError =>
      { nodeId := node.id, nodeName := node.name, status := .timeout,
        error := some "Request timeout" }
  | .otherError msg =>
      { nodeId := node.id, nodeName := node.name, status := .error,
        error := some msg }
  | .thrownNonError =>
      { nodeId := node.id, nodeName := node.name, status := .error,
        error := some "Unknown error" }

/-- The per-node deadline of queryAllNodes (part_001 line 80), milliseconds;
its expiry aborts that node's fetch, which surfaces as FetchOutcome.abortError
for that node alone. -/
def timeoutMs : Nat := 30000

/-- The per-node tasks of queryAllNodes (part_001 lines 82-90), carried by the
position of each node in the input list; the outcome environment maps each
position (one fetch per task) to how that task's fetch settles. -/
def queryAllNodesAux (params : QueryParams) (env : Nat → FetchOutcome) :
    Nat → List VamdcNode → List NodeResponse
  | _, [] => []
  | i, node :: rest =>
      queryNode node params (env i) :: queryAllNodesAux params env (i + 1) rest

/-- queryAllNodes (part_001 lines 75-93): Promise.all over the per-node tasks
preserves input order, so the returned collection is the input-order list of
the individual per-node results. -/
def queryAllNodes (nodes : List VamdcNode) (params : QueryParams)
    (env : Nat → FetchOutcome) : List NodeResponse :=
  queryAllNodesAux params env 0 nodes

/-- The onProgress invocations of one queryAllNodes round: each task invokes
the sink once, when it settles, so the round's progress sequence is the result
list read in settlement order — an arbitrary permutation of the positions. -/
def progressEvents (nodes : List VamdcNode) (params : QueryParams)
    (env : Nat → FetchOutcome) (order : List Nat) : List NodeResponse :=
  order.filterMap (fun i => (queryAllNodes nodes params env)[i]?)

/-- Fuel irrelevance for the decimal digit expansion. -/
theorem natDigitsRevAux_fuel_irrel (n : Nat) :
    ∀ f₁ f₂, n ≤ f₁ → n ≤ f₂ → natDigitsRevAux n f₁ = natDigitsRevAux n f₂ := by
  induction n using Nat.strong_induction_on with
  | _ n ih =>
    intro f₁ f₂ h₁ h₂
    cases n with
    | zero => cases f₁ <;> cases f₂ <;> rfl
    | succ m =>
      obtain ⟨g₁, rfl⟩ : ∃ g₁, f₁ = g₁ + 1 := ⟨f₁ - 1, by omega⟩
      obtain ⟨g₂, rfl⟩ : ∃ g₂, f₂ = g₂ + 1 := ⟨f₂ - 1, by omega⟩
      show ((m + 1) % 10) :: natDigitsRevAux ((m + 1) / 10) g₁ =
        ((m + 1) % 10) :: natDigitsRevAux ((m + 1) / 10) g₂
      have hlt : (m + 1) / 10 < m + 1 := Nat.div_lt_self (Nat.succ_pos m) (by omega)
      rw [ih ((m + 1) / 10) hlt g₁ g₂ (by omega) (by omega)]

/-- Unfolding equation for natDigitsRev at a positive argument. -/
theorem natDigitsRev_succ (n : Nat) :
    natDigitsRev (n + 1) = ((n + 1) % 10) :: natDigitsRev ((n + 1) / 10) := by
  show natDigitsRevAux (n + 1) (n + 1) = _
  show ((n + 1) % 10) :: natDigitsRevAux ((n + 1) / 10) n = _
  rw [natDigitsRevAux_fuel_irrel ((n + 1) / 10) n ((n + 1) / 10) (by omega) (Nat.le_refl _)]
  rfl

/-- The digit expansion is empty exactly for zero. -/
theorem natDigitsRev_eq_nil {n : Nat} : natDigitsRev n = [] ↔ n = 0 := by
  cases n with
  | zero => simp [natDigitsRev, natDigitsRevAux]
  | succ m => rw [natDigitsRev_succ]; simp

/-- All entries of the digit expansion are decimal digits. -/
theorem natDigitsRev_mem_lt (n : Nat) : ∀ d ∈ natDigitsRev n, d < 10 := by
  induction n using Nat.strong_induction_on with
  | _ n ih =>
    cases n with
    | zero => intro d hd; simp [natDigitsRev, natDigitsRevAux] at hd
    | succ m =>
      rw [natDigitsRev_succ]
      intro d hd
      rcases List.mem_cons.mp hd with h | h
      · subst h; exact Nat.mod_lt _ (by omega)
      · exact ih ((m + 1) / 10) (Nat.div_lt_self (Nat.succ_pos m) (by omega)) d h

/-- The digit expansion is injective. -/
theorem natDigitsRev_inj (a : Nat) : ∀ b, natDigitsRev a = natDigitsRev b → a = b := by
  induction a using Nat.strong_induction_on with
  | _ a ih =>
    intro b h
    cases a with
    | zero =>
      cases b with
      | zero => rfl
      | succ k => rw [natDigitsRev_succ] at h; simp [natDigitsRev, natDigitsRevAux] at h
    | succ m =>
      cases b with
      | zero => rw [natDigitsRev_succ] at h; simp [natDigitsRev, natDigitsRevAux] at h
      | succ k =>
        rw [natDigitsRev_succ, natDigitsRev_succ] at h
        simp only [List.cons.injEq] at h
        obtain ⟨h1, h2⟩ := h
        have hlt : (m + 1) / 10 < m + 1 := Nat.div_lt_self (Nat.succ_pos m) (by omega)
        have h3 := ih ((m + 1) / 10) hlt ((k + 1) / 10) h2
        omega

/-- Digit characters distinguish decimal digits. -/
theorem jsDigitChar_inj : ∀ a < 10, ∀ b < 10, jsDigitChar a = jsDigitChar b → a = b := by
  decide

/-- Mapping digit characters over digit lists is injective. -/
theorem map_jsDigitChar_inj :
    ∀ l₁ l₂ : List Nat, (∀ x ∈ l₁, x < 10) → (∀ x ∈ l₂, x < 10) →
      l₁.map jsDigitChar = l₂.map jsDigitChar → l₁ = l₂ := by
  intro l₁
  induction l₁ with
  | nil =>
    intro l₂ _ _ h
    cases l₂ with
    | nil => rfl
    | cons b t => simp at h
  | cons a t iht =>
    intro l₂ h₁ h₂ h
    cases l₂ with
    | nil => simp at h
    | cons b t₂ =>
      simp only [List.map_cons, List.cons.injEq] at h
      have hab : a = b :=
        jsDigitChar_inj a (h₁ a (by simp)) b (h₂ b (by simp)) h.1
      subst hab
      rw [iht t₂ (fun x hx => h₁ x (by simp [hx])) (fun x hx => h₂ x (by simp [hx])) h.2]

/-- Character data of the rendered numeral. -/
theorem jsNatToString_data (n : Nat) :
    (jsNatToString n).data =
      if n = 0 then [jsDigitChar 0] else (natDigitsRev n).reverse.map jsDigitChar := by
  unfold jsNatToString
  split <;> rfl

/-- JavaScript decimal rendering of naturals is injective. -/
theorem jsNatToString_inj : ∀ a b : Nat, jsNatToString a = jsNatToString b → a = b := by
  have singleton_zero : ∀ b : Nat, b ≠ 0 →
      (natDigitsRev b).reverse.map jsDigitChar ≠ [jsDigitChar 0] := by
    intro b hb hcontra
    have h0 : ([0] : List Nat).map jsDigitChar = [jsDigitChar 0] := by simp
    have hrev : (natDigitsRev b).reverse = [0] := by
      apply map_jsDigitChar_inj _ _ _ _ (hcontra.trans h0.symm)
      · intro x hx
        exact natDigitsRev_mem_lt b x (List.mem_reverse.mp hx)
      · intro x hx; simp at hx; omega
    have hdig : natDigitsRev b = [0] := by
      have := congrArg List.reverse hrev
      simpa using this
    obtain ⟨m, rfl⟩ : ∃ m, b = m + 1 := ⟨b - 1, by omega⟩
    rw [natDigitsRev_succ] at hdig
    simp only [List.cons.injEq] at hdig
    have : (m + 1) / 10 = 0 := natDigitsRev_eq_nil.mp hdig.2
    omega
  intro a b h
  have hd := congrArg String.data h
  rw [jsNatToString_data, jsNatToString_data] at hd
  by_cases ha : a = 0 <;> by_cases hb : b = 0
  · omega
  · subst ha; simp only [if_pos rfl, if_neg hb] at hd
    exact absurd hd.symm (singleton_zero b hb)
  · subst hb; simp only [if_pos rfl, if_neg ha] at hd
    exact absurd hd (singleton_zero a ha)
  · simp only [if_neg ha, if_neg hb] at hd
    have hrev : (natDigitsRev a).reverse = (natDigitsRev b).reverse := by
      apply map_jsDigitChar_inj _ _ _ _ hd
      · intro x hx; exact natDigitsRev_mem_lt a x (List.mem_reverse.mp hx)
      · intro x hx; exact natDigitsRev_mem_lt b x (List.mem_reverse.mp hx)
    exact natDigitsRev_inj a b (List.reverse_inj.mp hrev)

/-- The ordinal node identifiers are pairwise distinguishable. -/
theorem nodeId_token_inj :
    ∀ a b : Nat, "node-" ++ jsNatToString a = "node-" ++ jsNatToString b → a = b := by
  intro a b h
  apply jsNatToString_inj
  apply String.ext
  have hd := congrArg String.data h
  simp only [String.data_append] at hd
  exact List.append_cancel_left hd

/-- C3 counterexample: on wavelengthMin=4000, wavelengthMax=5000 and base URL
https://x.org/tap/, the URL the encoder builds is not the one the spec states:
encodeURIComponent leaves the asterisk unescaped, so the built URL carries a
literal asterisk where the spec scenario expects the escape %2A. -/
theorem c3_probe_url_counterexample :
    buildDownloadUrl "https://x.org/tap/"
      (buildQueryString { wavelengthMin := 4000, wavelengthMax := 5000 }) ≠
    "https://x.org/tap/sync?LANG=VSS2&REQUEST=doQuery&FORMAT=XSAMS&QUERY=SELECT%20%2A%20WHERE%20RadTransWavelength%20%3E%3D%204000%20AND%20RadTransWavelength%20%3C%3D%205000" := by
  decide

/-- C3 amended: the probe URL built for wavelengthMin=4000, wavelengthMax=5000
against base URL https://x.org/tap/ is exactly the spec scenario string except
that the asterisk of the SELECT predicate stays literal (encodeURIComponent
treats the asterisk as unreserved and does not produce %2A). -/
theorem c3_probe_url_amended :
    buildDownloadUrl "https://x.org/tap/"
      (buildQueryString { wavelengthMin := 4000, wavelengthMax := 5000 }) =
    "https://x.org/tap/sync?LANG=VSS2&REQUEST=doQuery&FORMAT=XSAMS&QUERY=SELECT%20*%20WHERE%20RadTransWavelength%20%3E%3D%204000%20AND%20RadTransWavelength%20%3C%3D%205000" := by
  decide

/-- Unfolding of the parse loop over a cons cell. -/
theorem parseNodesAux_cons (i : Nat) (r : NodeRecord) (rest : List NodeRecord) :
    parseNodesAux i (r :: rest) =
      (parseNodeRecord i r).toList ++ parseNodesAux (i + 1) rest := by
  cases h : parseNodeRecord i r <;> simp [parseNodesAux, h]

/-- A produced node carries the ordinal identifier of its element index. -/
theorem parseNodeRecord_id (i : Nat) (r : NodeRecord) (node : VamdcNode)
    (h : parseNodeRecord i r = some node) :
    node.id = "node-" ++ jsNatToString i := by
  unfold parseNodeRecord at h
  split at h
  · injection h with h
    subst h
    rfl
  · exact Option.noConfusion h

/-- Appending a slash makes a string non-empty. -/
theorem append_slash_ne_empty (s : String) : s ++ "/" ≠ "" := by
  intro hc
  have := congrArg String.data hc
  simp [String.data_append] at this

/-- Appending a slash yields a string that ends with a slash. -/
theorem jsEndsWith_append_slash (s : String) : jsEndsWith (s ++ "/") "/" = true := by
  unfold jsEndsWith
  rw [List.isSuffixOf_iff_suffix, String.data_append]
  exact List.suffix_append s.data _

/-- The processed url is empty exactly when its first space-piece is. -/
theorem recordUrl2_eq_empty_iff (r : NodeRecord) : recordUrl2 r = "" ↔ recordUrl1 r = "" := by
  unfold recordUrl2
  split
  · rename_i h
    exact ⟨fun hc => absurd hc (append_slash_ne_empty _), fun hc => absurd hc h.1⟩
  · exact Iff.rfl

/-- Value of the processed url when the first space-piece is non-empty. -/
theorem recordUrl2_val (r : NodeRecord) (h : recordUrl1 r ≠ "") :
    recordUrl2 r =
      if jsEndsWith (recordUrl1 r) "/" = true then recordUrl1 r
      else recordUrl1 r ++ "/" := by
  unfold recordUrl2
  by_cases he : jsEndsWith (recordUrl1 r) "/" = true
  · rw [if_neg (by simp [he]), if_pos he]
  · rw [if_pos ⟨h, by simpa using he⟩, if_neg he]

/-- Every non-empty processed url ends with a slash. -/
theorem recordUrl2_endsWith (r : NodeRecord) (h : recordUrl2 r ≠ "") :
    jsEndsWith (recordUrl2 r) "/" = true := by
  have h1 : recordUrl1 r ≠ "" := fun hc => h ((recordUrl2_eq_empty_iff r).mpr hc)
  rw [recordUrl2_val r h1]
  by_cases he : jsEndsWith (recordUrl1 r) "/" = true
  · rw [if_pos he]; exact he
  · rw [if_neg he]; exact jsEndsWith_append_slash _

/-- The record step yields a node exactly when the first space-piece of the
url text is non-empty. -/
theorem parseNodeRecord_eq_some (i : Nat) (r : NodeRecord) (h : recordUrl1 r ≠ "") :
    parseNodeRecord i r =
      some { id := "node-" ++ jsNatToString i, name := recordTitle r,
             tapEndpoint := recordUrl2 r } := by
  unfold parseNodeRecord
  rw [if_pos (fun hc => h ((recordUrl2_eq_empty_iff r).mp hc))]

/-- The record step yields no node when the first space-piece is empty. -/
theorem parseNodeRecord_eq_none (i : Nat) (r : NodeRecord) (h : recordUrl1 r = "") :
    parseNodeRecord i r = none := by
  unfold parseNodeRecord
  rw [if_neg (fun hc => hc ((recordUrl2_eq_empty_iff r).mpr h))]

/-- Membership in the loop output comes from some element index. -/
theorem mem_parseNodesAux :
    ∀ (recs : List NodeRecord) (j : Nat) (node : VamdcNode),
      node ∈ parseNodesAux j recs →
      ∃ k r, recs[k]? = some r ∧ parseNodeRecord (j + k) r = some node := by
  intro recs
  induction recs with
  | nil => intro j node h; simp [parseNodesAux] at h
  | cons r rest ih =>
    intro j node h
    rw [parseNodesAux_cons] at h
    rcases List.mem_append.mp h with h1 | h1
    · refine ⟨0, r, by simp, ?_⟩
      cases hp : parseNodeRecord j r with
      | none => rw [hp] at h1; simp at h1
      | some node' =>
        rw [hp] at h1
        simp at h1
        subst h1
        simpa using hp
    · obtain ⟨k, r', hk, hp⟩ := ih (j + 1) node h1
      refine ⟨k + 1, r', by simpa using hk, ?_⟩
      rw [show j + (k + 1) = j + 1 + k by omega]
      exact hp

/-- The identifiers produced by the loop are pairwise distinct. -/
theorem parseNodesAux_ids_nodup :
    ∀ (recs : List NodeRecord) (j : Nat),
      ((parseNodesAux j recs).map VamdcNode.id).Nodup := by
  intro recs
  induction recs with
  | nil => intro j; simp [parseNodesAux]
  | cons r rest ih =>
    intro j
    rw [parseNodesAux_cons, List.map_append]
    cases hp : parseNodeRecord j r with
    | none => simpa using ih (j + 1)
    | some node =>
      simp only [Option.toList, List.map_cons, List.map_nil, List.cons_append,
        List.nil_append]
      rw [List.nodup_cons]
      refine ⟨?_, ih (j + 1)⟩
      intro hmem
      obtain ⟨node', hmem', hid⟩ := List.mem_map.mp hmem
      obtain ⟨k, r', _, hp'⟩ := mem_parseNodesAux rest (j + 1) node' hmem'
      have e1 : node.id = "node-" ++ jsNatToString j := parseNodeRecord_id j r node hp
      have e2 : node'.id = "node-" ++ jsNatToString (j + 1 + k) :=
        parseNodeRecord_id _ r' node' hp'
      have : j + 1 + k = j := nodeId_token_inj _ _ (e2.symm.trans (hid.trans e1))
      omega

/-- The nodes the loop produces under a given ordinal identifier are exactly
those of the record at the matching element index. -/
theorem parseNodesAux_filter_id :
    ∀ (recs : List NodeRecord) (j i : Nat),
      (parseNodesAux j recs).filter (fun n => n.id = "node-" ++ jsNatToString i) =
        if j ≤ i then ((recs[i - j]?).bind (parseNodeRecord i)).toList else [] := by
  intro recs
  induction recs with
  | nil =>
    intro j i
    simp [parseNodesAux]
  | cons r rest ih =>
    intro j i
    rw [parseNodesAux_cons, List.filter_append]
    rcases Nat.lt_trichotomy j i with hlt | heq | hgt
    · have h1 : (parseNodeRecord j r).toList.filter
          (fun n => n.id = "node-" ++ jsNatToString i) = [] := by
        cases hp : parseNodeRecord j r with
        | none => rfl
        | some node =>
          have hne : ¬ (node.id = "node-" ++ jsNatToString i) := by
            rw [parseNodeRecord_id j r node hp]
            intro hc
            exact absurd (nodeId_token_inj j i hc) (by omega)
          simp [hne]
      rw [h1, List.nil_append, ih (j + 1) i, if_pos (by omega), if_pos (by omega),
        show i - j = (i - (j + 1)) + 1 by omega, List.getElem?_cons_succ]
    · subst heq
      rw [ih (j + 1) j, if_neg (by omega), if_pos (Nat.le_refl j), Nat.sub_self,
        List.getElem?_cons_zero, List.append_nil]
      cases hp : parseNodeRecord j r with
      | none => simp [hp]
      | some node =>
        have hid : node.id = "node-" ++ jsNatToString j := parseNodeRecord_id j r node hp
        simp [hp, hid]
    · have h1 : (parseNodeRecord j r).toList.filter
          (fun n => n.id = "node-" ++ jsNatToString i) = [] := by
        cases hp : parseNodeRecord j r with
        | none => rfl
        | some node =>
          have hne : ¬ (node.id = "node-" ++ jsNatToString i) := by
            rw [parseNodeRecord_id j r node hp]
            intro hc
            exact absurd (nodeId_token_inj j i hc) (by omega)
          simp [hne]
      rw [h1, List.nil_append, ih (j + 1) i, if_neg (by omega), if_neg (by omega)]

/-- C5 counterexample: the record whose url text is a space followed by a URL
has a whitespace-separated candidate URL, yet parseNodesXml yields no node for
it, because the code keeps only the (here empty) prefix before the first
space character. -/
theorem c5_candidate_url_counterexample :
    specCandidateUrls " https://a.org/" ≠ [] ∧
    parseNodesXml [{ title := some "T", url := some " https://a.org/" }] = [] := by
  decide

/-- C5 amended: parseNodesXml keeps, per record, only the prefix of the url
text before the first space character (recordUrl1). A record whose prefix is
empty — including one whose url text begins with a space although it still
contains a whitespace-separated candidate URL — yields no node; a record with
a non-empty prefix yields exactly one node, whose URL is that prefix with a
trailing slash appended when it lacks one; a document yielding zero records
gives the valid empty result. -/
theorem c5_first_piece_amended (records : List NodeRecord) (i : Nat) (r : NodeRecord)
    (hrec : records[i]? = some r) :
    (recordUrl1 r = "" →
      (parseNodesXml records).filter (fun n => n.id = "node-" ++ jsNatToString i) = []) ∧
    (recordUrl1 r ≠ "" →
      (parseNodesXml records).filter (fun n => n.id = "node-" ++ jsNatToString i) =
        [{ id := "node-" ++ jsNatToString i, name := recordTitle r,
           tapEndpoint :=
             if jsEndsWith (recordUrl1 r) "/" = true then recordUrl1 r
             else recordUrl1 r ++ "/" }]) ∧
    parseNodesXml [] = [] := by
  have hfilter := parseNodesAux_filter_id records 0 i
  rw [if_pos (Nat.zero_le i), Nat.sub_zero, hrec] at hfilter
  refine ⟨?_, ?_, rfl⟩
  · intro h
    unfold parseNodesXml
    rw [hfilter]
    simp [parseNodeRecord_eq_none i r h]
  · intro h
    unfold parseNodesXml
    rw [hfilter]
    simp [parseNodeRecord_eq_some i r h, recordUrl2_val r h]

/-- Witness for the amended C5 theorem at a concrete document: the record with
url text "a b" yields exactly the node node-0 with endpoint "a/". -/
theorem c5_first_piece_witness :
    (parseNodesXml [{ title := some "T", url := some "a b" }]).filter
        (fun n => n.id = "node-" ++ jsNatToString 0) =
      [{ id := "node-" ++ jsNatToString 0,
         name := recordTitle { title := some "T", url := some "a b" },
         tapEndpoint :=
           if jsEndsWith (recordUrl1 { title := some "T", url := some "a b" }) "/" = true
           then recordUrl1 { title := some "T", url := some "a b" }
           else recordUrl1 { title := some "T", url := some "a b" } ++ "/" }] :=
  (c5_first_piece_amended [{ title := some "T", url := some "a b" }] 0
    { title := some "T", url := some "a b" } (by decide)).2.1 (by decide)

/-- C9 confirmed: every node of a live-registry resolution pass carries the
ordinal identifier node-<index> derived from the index of the record it came
from, and the identifiers produced within one pass are pairwise distinct. -/
theorem c9_ordinal_ids (records : List NodeRecord) :
    ((parseNodesXml records).map VamdcNode.id).Nodup ∧
    ∀ node ∈ parseNodesXml records, ∃ i r, records[i]? = some r ∧
      parseNodeRecord i r = some node ∧ node.id = "node-" ++ jsNatToString i := by
  refine ⟨parseNodesAux_ids_nodup records 0, ?_⟩
  intro node hmem
  obtain ⟨k, r, hk, hp⟩ := mem_parseNodesAux records 0 node hmem
  refine ⟨k, r, hk, by simpa using hp, ?_⟩
  have := parseNodeRecord_id (0 + k) r node hp
  simpa using this

/-- Witness for the C9 theorem at a concrete document with a dropped middle
record: the second produced node carries identifier node-2. -/
theorem c9_ordinal_ids_witness :
    ((parseNodesXml [{ title := some "A", url := some "u" },
        { title := none, url := none },
        { title := some "B", url := some "v" }]).map VamdcNode.id).Nodup ∧
    (∃ i r, ([{ title := some "A", url := some "u" },
        { title := none, url := none },
        { title := some "B", url := some "v" }] : List NodeRecord)[i]? = some r ∧
      parseNodeRecord i r = some { id := "node-2", name := "B", tapEndpoint := "v/" } ∧
      VamdcNode.id { id := "node-2", name := "B", tapEndpoint := "v/" } =
        "node-" ++ jsNatToString i) :=
  ⟨(c9_ordinal_ids _).1,
   (c9_ordinal_ids [{ title := some "A", url := some "u" },
      { title := none, url := none },
      { title := some "B", url := some "v" }]).2
     { id := "node-2", name := "B", tapEndpoint := "v/" } (by decide)⟩

/-- C10 confirmed: a record with a usable URL but an absent or empty title
still yields a node, named by the literal Unknown. -/
theorem c10_unknown_title (records : List NodeRecord) (i : Nat) (r : NodeRecord)
    (hrec : records[i]? = some r) (htitle : r.title = none ∨ r.title = some "")
    (hurl : recordUrl1 r ≠ "") :
    ∃ node ∈ parseNodesXml records, node.id = "node-" ++ jsNatToString i ∧
      node.name = "Unknown" := by
  have hfilter := parseNodesAux_filter_id records 0 i
  rw [if_pos (Nat.zero_le i), Nat.sub_zero, hrec] at hfilter
  have hname : recordTitle r = "Unknown" := by
    rcases htitle with h | h <;> simp [recordTitle, h]
  have hmem :
      VamdcNode.mk ("node-" ++ jsNatToString i) (recordTitle r) (recordUrl2 r) ∈
        (parseNodesXml records).filter (fun n => n.id = "node-" ++ jsNatToString i) := by
    unfold parseNodesXml
    rw [hfilter]
    simp [parseNodeRecord_eq_some i r hurl]
  exact ⟨_, List.mem_of_mem_filter hmem, rfl, hname⟩

/-- Witness for the C10 theorem: a single record with no title element and
url text "u" yields the node node-0 named Unknown. -/
theorem c10_unknown_title_witness :
    ∃ node ∈ parseNodesXml [{ title := none, url := some "u" }],
      node.id = "node-" ++ jsNatToString 0 ∧ node.name = "Unknown" :=
  c10_unknown_title [{ title := none, url := some "u" }] 0
    { title := none, url := some "u" } (by decide) (Or.inl rfl) (by decide)

/-- C8 counterexample: the static strategy returns the parsed records as-is,
so a nodes.json record whose endpoint lacks a trailing slash reaches the
caller unchanged — no resolution-pass invariant forces the slash. -/
theorem c8_static_counterexample :
    fetchNodes [{ id := "n1", name := "N", tapEndpoint := "https://a.org" }] =
      [{ id := "n1", name := "N", tapEndpoint := "https://a.org" }] ∧
    jsEndsWith "https://a.org" "/" = false := by
  decide

/-- C8 amended: every node produced by the live strategy has an endpoint URL
ending with a slash, while the static strategy returns the fetched records
unchanged, so its nodes carry whatever the static resource provides (and
neither strategy checks that the URL is absolute). -/
theorem c8_trailing_slash_amended :
    (∀ records : List NodeRecord, ∀ node ∈ parseNodesXml records,
        jsEndsWith node.tapEndpoint "/" = true) ∧
    (∀ body : List VamdcNode, fetchNodes body = body) := by
  refine ⟨?_, fun _ => rfl⟩
  intro records node hmem
  obtain ⟨k, r, _, hp⟩ := mem_parseNodesAux records 0 node hmem
  unfold parseNodeRecord at hp
  split at hp
  · rename_i h
    injection hp with hp
    subst hp
    exact recordUrl2_endsWith r h
  · exact Option.noConfusion hp

/-- Witness for the amended C8 theorem: the live node built from url text "u"
ends with a slash, and the static strategy passes a concrete list through. -/
theorem c8_trailing_slash_witness :
    jsEndsWith (VamdcNode.tapEndpoint
      { id := "node-" ++ jsNatToString 0, name := "T", tapEndpoint := "u/" }) "/" = true ∧
    fetchNodes [{ id := "n1", name := "N", tapEndpoint := "https://a.org" }] =
      [{ id := "n1", name := "N", tapEndpoint := "https://a.org" }] :=
  ⟨c8_trailing_slash_amended.1 [{ title := some "T", url := some "u" }]
      { id := "node-" ++ jsNatToString 0, name := "T", tapEndpoint := "u/" } (by decide),
   c8_trailing_slash_amended.2 _⟩

/-- Every result queryNode builds carries the probed node's id. -/
theorem queryNode_nodeId (node : VamdcNode) (params : QueryParams)
    (outcome : FetchOutcome) : (queryNode node params outcome).nodeId = node.id := by
  cases outcome with
  | response s h =>
      simp only [queryNode]
      split <;> rfl
  | abortError => rfl
  | otherError m => rfl
  | thrownNonError => rfl

/-- The fan-out returns one result per input node. -/
theorem queryAllNodesAux_length (params : QueryParams) (env : Nat → FetchOutcome) :
    ∀ (nodes : List VamdcNode) (i : Nat),
      (queryAllNodesAux params env i nodes).length = nodes.length := by
  intro nodes
  induction nodes with
  | nil => intro i; rfl
  | cons n rest ih => intro i; simp [queryAllNodesAux, ih (i + 1)]

/-- Positional characterization of the fan-out results. -/
theorem queryAllNodesAux_getElem? (params : QueryParams) (env : Nat → FetchOutcome) :
    ∀ (nodes : List VamdcNode) (i j : Nat),
      (queryAllNodesAux params env i nodes)[j]? =
        (nodes[j]?).map (fun n => queryNode n params (env (i + j))) := by
  intro nodes
  induction nodes with
  | nil => intro i j; simp [queryAllNodesAux]
  | cons n rest ih =>
    intro i j
    cases j with
    | zero => simp [queryAllNodesAux]
    | succ k =>
      simp only [queryAllNodesAux, List.getElem?_cons_succ]
      rw [ih (i + 1) k, show i + 1 + k = i + (k + 1) by omega]

/-- The result ids of the fan-out are the input ids, in input order. -/
theorem queryAllNodesAux_map_nodeId (params : QueryParams) (env : Nat → FetchOutcome) :
    ∀ (nodes : List VamdcNode) (i : Nat),
      (queryAllNodesAux params env i nodes).map NodeResponse.nodeId =
        nodes.map VamdcNode.id := by
  intro nodes
  induction nodes with
  | nil => intro i; rfl
  | cons n rest ih =>
    intro i
    simp [queryAllNodesAux, queryNode_nodeId, ih (i + 1)]

/-- Reading every position of a list in order recovers the list. -/
theorem filterMap_getElem?_range (l : List NodeResponse) :
    (List.range l.length).filterMap (fun i => l[i]?) = l := by
  induction l with
  | nil => rfl
  | cons a t ih =>
    rw [List.length_cons, List.range_succ_eq_map, List.filterMap_cons, List.filterMap_map]
    have hcomp : ((fun i => (a :: t)[i]?) ∘ Nat.succ) = fun i => t[i]? := by
      funext i
      simp
    simp only [List.getElem?_cons_zero, hcomp, ih]

/-- The progress sequence of a round is a permutation of the result list
whenever the settlement order is a permutation of the task positions. -/
theorem progressEvents_perm (nodes : List VamdcNode) (params : QueryParams)
    (env : Nat → FetchOutcome) (order : List Nat)
    (h : order.Perm (List.range nodes.length)) :
    (progressEvents nodes params env order).Perm (queryAllNodes nodes params env) := by
  unfold progressEvents
  have hlen : nodes.length = (queryAllNodes nodes params env).length :=
    (queryAllNodesAux_length params env nodes 0).symm
  rw [hlen] at h
  have hperm := h.filterMap (fun i => (queryAllNodes nodes params env)[i]?)
  rw [filterMap_getElem?_range] at hperm
  exact hperm

/-- C1 confirmed: with pairwise distinct input ids and any settlement order,
the progress sink fires exactly N times, once per distinct nodeId, and the
returned collection has exactly the input ids in input order (result i
carries the id of node i). -/
theorem c1_fanout_counts (nodes : List VamdcNode) (params : QueryParams)
    (env : Nat → FetchOutcome) (order : List Nat)
    (hids : (nodes.map VamdcNode.id).Nodup)
    (horder : order.Perm (List.range nodes.length)) :
    (progressEvents nodes params env order).length = nodes.length ∧
    (∀ nid ∈ nodes.map VamdcNode.id,
      ((progressEvents nodes params env order).map NodeResponse.nodeId).count nid = 1) ∧
    (queryAllNodes nodes params env).map NodeResponse.nodeId =
      nodes.map VamdcNode.id := by
  have hmap : (queryAllNodes nodes params env).map NodeResponse.nodeId =
      nodes.map VamdcNode.id := queryAllNodesAux_map_nodeId params env nodes 0
  have hperm := progressEvents_perm nodes params env order horder
  refine ⟨?_, ?_, hmap⟩
  · rw [hperm.length_eq]
    exact queryAllNodesAux_length params env nodes 0
  · intro nid hnid
    have hcnt := (hperm.map NodeResponse.nodeId).count_eq nid
    rw [hmap] at hcnt
    rw [hcnt]
    exact List.count_eq_one_of_mem hids hnid

/-- Witness for the C1 theorem: two nodes, reversed settlement order. -/
theorem c1_fanout_counts_witness :
    (progressEvents [{ id := "a", name := "A", tapEndpoint := "u/" },
        { id := "b", name := "B", tapEndpoint := "v/" }]
      { wavelengthMin := 4000, wavelengthMax := 5000 }
      (fun _ => FetchOutcome.abortError) [1, 0]).length = 2 ∧
    ((progressEvents [{ id := "a", name := "A", tapEndpoint := "u/" },
        { id := "b", name := "B", tapEndpoint := "v/" }]
      { wavelengthMin := 4000, wavelengthMax := 5000 }
      (fun _ => FetchOutcome.abortError) [1, 0]).map NodeResponse.nodeId).count "a" = 1 ∧
    (queryAllNodes [{ id := "a", name := "A", tapEndpoint := "u/" },
        { id := "b", name := "B", tapEndpoint := "v/" }]
      { wavelengthMin := 4000, wavelengthMax := 5000 }
      (fun _ => FetchOutcome.abortError)).map NodeResponse.nodeId = ["a", "b"] :=
  have h := c1_fanout_counts
    [{ id := "a", name := "A", tapEndpoint := "u/" },
     { id := "b", name := "B", tapEndpoint := "v/" }]
    { wavelengthMin := 4000, wavelengthMax := 5000 }
    (fun _ => FetchOutcome.abortError) [1, 0] (by decide) (by decide)
  ⟨h.1, h.2.1 "a" (by decide), h.2.2⟩

/-- C2 confirmed: queryNode is total — every fetch outcome maps to exactly one
result whose status is terminal (never pending); cancellation (AbortError)
yields a timeout result with error text Request timeout, any other Error
rejection yields an error result carrying its message, and a non-Error
rejection yields an error result with the text Unknown error. -/
theorem c2_prober_total (node : VamdcNode) (params : QueryParams) :
    (∀ outcome : FetchOutcome,
      (queryNode node params outcome).status ≠ QueryStatus.pending) ∧
    queryNode node params FetchOutcome.abortError =
      { nodeId := node.id, nodeName := node.name, status := QueryStatus.timeout,
        error := some "Request timeout" } ∧
    (∀ msg, queryNode node params (FetchOutcome.otherError msg) =
      { nodeId := node.id, nodeName := node.name, status := QueryStatus.error,
        error := some msg }) ∧
    queryNode node params FetchOutcome.thrownNonError =
      { nodeId := node.id, nodeName := node.name, status := QueryStatus.error,
        error := some "Unknown error" } := by
  refine ⟨?_, rfl, fun msg => rfl, rfl⟩
  intro outcome
  cases outcome with
  | response s h =>
      simp only [queryNode]
      split <;> intro hc <;> exact QueryStatus.noConfusion hc
  | abortError => intro hc; exact QueryStatus.noConfusion hc
  | otherError m => intro hc; exact QueryStatus.noConfusion hc
  | thrownNonError => intro hc; exact QueryStatus.noConfusion hc

/-- C7 confirmed: a settled response with a non-success status yields an error
result embedding the code as HTTP <code>, with no statistics fields and no
download URL. -/
theorem c7_http_error (node : VamdcNode) (params : QueryParams) (status : Nat)
    (headers : List (String × String)) (h : responseOk status = false) :
    queryNode node params (FetchOutcome.response status headers) =
      { nodeId := node.id, nodeName := node.name, status := QueryStatus.error,
        numSpecies := none, numStates := none, numTransitions := none,
        downloadUrl := none, error := some ("HTTP " ++ jsNatToString status) } := by
  simp only [queryNode]
  rw [if_neg (by simp [h])]

/-- Witness for the C7 theorem: an HTTP 404 response. -/
theorem c7_http_error_witness :
    queryNode { id := "a", name := "A", tapEndpoint := "u/" }
        { wavelengthMin := 4000, wavelengthMax := 5000 }
        (FetchOutcome.response 404 [("VAMDC-COUNT-SPECIES", "12")]) =
      { nodeId := "a", nodeName := "A", status := QueryStatus.error,
        numSpecies := none, numStates := none, numTransitions := none,
        downloadUrl := none, error := some ("HTTP " ++ jsNatToString 404) } :=
  c7_http_error { id := "a", name := "A", tapEndpoint := "u/" }
    { wavelengthMin := 4000, wavelengthMax := 5000 } 404
    [("VAMDC-COUNT-SPECIES", "12")] (by decide)

/-- C4 counterexample: a success response whose species header carries the
non-numeric value abc yields numSpecies = NaN (parseInt returns NaN), not the
0 the claim states. -/
theorem c4_nonnumeric_counterexample :
    (queryNode { id := "a", name := "A", tapEndpoint := "u/" }
        { wavelengthMin := 4000, wavelengthMax := 5000 }
        (FetchOutcome.response 200 [("VAMDC-COUNT-SPECIES", "abc")])).numSpecies =
      some JsNum.nan ∧
    some JsNum.nan ≠ some (JsNum.int 0) := by
  decide

/-- C4 amended: on a success response each statistic signal defaults to 0 when
its header is absent or has an empty value — in particular a response carrying
only two of the three statistic headers yields the missing one as 0, present,
not absent — while a present non-empty non-numeric value yields NaN, not 0;
no failure is raised in any of these cases. -/
theorem c4_header_defaults (node : VamdcNode) (params : QueryParams) (status : Nat)
    (headers : List (String × String)) (hok : responseOk status = true) :
    (lookupHeader headers "VAMDC-COUNT-SPECIES" = none →
      (queryNode node params (FetchOutcome.response status headers)).numSpecies =
        some (JsNum.int 0)) ∧
    (lookupHeader headers "VAMDC-COUNT-STATES" = none →
      (queryNode node params (FetchOutcome.response status headers)).numStates =
        some (JsNum.int 0)) ∧
    (lookupHeader headers "VAMDC-COUNT-RADIATIVE" = none →
      (queryNode node params (FetchOutcome.response status headers)).numTransitions =
        some (JsNum.int 0)) ∧
    (∀ v, lookupHeader headers "VAMDC-COUNT-SPECIES" = some v → v = "" →
      (queryNode node params (FetchOutcome.response status headers)).numSpecies =
        some (JsNum.int 0)) ∧
    (∀ v, lookupHeader headers "VAMDC-COUNT-SPECIES" = some v → v ≠ "" →
      jsParseInt v = JsNum.nan →
      (queryNode node params (FetchOutcome.response status headers)).numSpecies =
        some JsNum.nan) := by
  simp only [queryNode]
  rw [if_pos hok]
  refine ⟨?_, ?_, ?_, ?_, ?_⟩
  · intro h; simp [getHeader, h]
  · intro h; simp [getHeader, h]
  · intro h; simp [getHeader, h]
  · intro v h hv; subst hv; simp [getHeader, h]
  · intro v h hv hnan; simp [getHeader, h, hv, hnan]

/-- Witness for the amended C4 theorem: a success response carrying only the
species and states headers yields numTransitions as 0. -/
theorem c4_header_defaults_witness :
    (queryNode { id := "a", name := "A", tapEndpoint := "u/" }
        { wavelengthMin := 4000, wavelengthMax := 5000 }
        (FetchOutcome.response 200
          [("VAMDC-COUNT-SPECIES", "12"), ("VAMDC-COUNT-STATES", "40")])).numTransitions =
      some (JsNum.int 0) :=
  (c4_header_defaults { id := "a", name := "A", tapEndpoint := "u/" }
    { wavelengthMin := 4000, wavelengthMax := 5000 } 200
    [("VAMDC-COUNT-SPECIES", "12"), ("VAMDC-COUNT-STATES", "40")]
    (by decide)).2.2.1 (by decide)

/-- C6 confirmed: the fan-out as a whole cannot fail — it yields exactly one
result per input node, the result at position i is exactly the prober's
result for node i under that node's own fetch outcome, and changing the fetch
outcomes of every other node leaves position i untouched (failure isolation). -/
theorem c6_fanout_isolation (nodes : List VamdcNode) (params : QueryParams)
    (env₁ env₂ : Nat → FetchOutcome) (i : Nat) (h : env₁ i = env₂ i) :
    (queryAllNodes nodes params env₁).length = nodes.length ∧
    (queryAllNodes nodes params env₁)[i]? =
      (nodes[i]?).map (fun n => queryNode n params (env₁ i)) ∧
    (queryAllNodes nodes params env₁)[i]? = (queryAllNodes nodes params env₂)[i]? := by
  have h₁ := queryAllNodesAux_getElem? params env₁ nodes 0 i
  have h₂ := queryAllNodesAux_getElem? params env₂ nodes 0 i
  rw [Nat.zero_add] at h₁ h₂
  refine ⟨queryAllNodesAux_length params env₁ nodes 0, h₁, ?_⟩
  unfold queryAllNodes
  rw [h₁, h₂, h]

/-- Witness for the C6 theorem: two environments that agree on position 0 but
differ on position 1 give the same result at position 0. -/
theorem c6_fanout_isolation_witness :
    (queryAllNodes [{ id := "a", name := "A", tapEndpoint := "u/" }]
      { wavelengthMin := 4000, wavelengthMax := 5000 }
      (fun _ => FetchOutcome.abortError)).length = 1 ∧
    (queryAllNodes [{ id := "a", name := "A", tapEndpoint := "u/" }]
      { wavelengthMin := 4000, wavelengthMax := 5000 }
      (fun _ => FetchOutcome.abortError))[0]? =
      some (queryNode { id := "a", name := "A", tapEndpoint := "u/" }
        { wavelengthMin := 4000, wavelengthMax := 5000 } FetchOutcome.abortError) ∧
    (queryAllNodes [{ id := "a", name := "A", tapEndpoint := "u/" }]
      { wavelengthMin := 4000, wavelengthMax := 5000 }
      (fun _ => FetchOutcome.abortError))[0]? =
    (queryAllNodes [{ id := "a", name := "A", tapEndpoint := "u/" }]
      { wavelengthMin := 4000, wavelengthMax := 5000 }
      (fun j => if j = 0 then FetchOutcome.abortError
        else FetchOutcome.otherError "boom"))[0]? :=
  c6_fanout_isolation [{ id := "a", name := "A", tapEndpoint := "u/" }]
    { wavelengthMin := 4000, wavelengthMax := 5000 }
    (fun _ => FetchOutcome.abortError)
    (fun j => if j = 0 then FetchOutcome.abortError else FetchOutcome.otherError "boom")
    0 rfl
